import Mathlib

/-!
Verification development for the podcast-to-blog pipeline.

Shallow embedding of the core components:
  - `src/core/blog_generator.py`  (generation client: retry loop, JSON
    extraction strategies, minimum-length enforcement)
  - `src/config/usage_limiter.py` (daily quota ledger)
  - `src/app.py`                  (background pipeline orchestration)
  - `src/core/wordpress_poster.py` (publishing client)

External collaborators (the Anthropic streaming call, `json.loads`, HTTP
transport, HTML parsing, the clock and the persistence file) are modelled
as explicit parameters or small abstract state types; everything written
in the repository itself is translated function by function.
-/

set_option maxRecDepth 16384

namespace P2B

/-! ### Character-level utilities modelling Python string primitives -/

/-- The character `{` (written via its code point). -/
def lbrace : Char := Char.ofNat 123

/-- The character `}` (written via its code point). -/
def rbrace : Char := Char.ofNat 125

/-- Does the second list start with the first list? -/
def isPrefixChars : List Char → List Char → Bool
  | [], _ => true
  | _ :: _, [] => false
  | p :: ps, c :: cs => p == c && isPrefixChars ps cs

/-- Does `s` contain `pat` as a contiguous substring (Python `pat in s`)? -/
def containsChars : List Char → List Char → Bool
  | [], pat => pat.isEmpty
  | c :: cs, pat => isPrefixChars pat (c :: cs) || containsChars cs pat

/-- Python substring membership test: `pat in s`. -/
def pyIn (pat s : String) : Bool := containsChars s.data pat.data

/-- Python `str.lower` (ASCII case folding; the strings compared in the
source are ASCII). -/
def pyLower (s : String) : String := ⟨s.data.map Char.toLower⟩

/-- Python slicing `s[:n]`: the first `n` characters. -/
def pyTake (s : String) (n : Nat) : String := ⟨s.data.take n⟩

/-- Index of the first position where `pat` occurs in `cs`. -/
def findSub : List Char → List Char → Option Nat
  | [], pat => if pat.isEmpty then some 0 else none
  | c :: cs, pat =>
    if isPrefixChars pat (c :: cs) then some 0
    else (findSub cs pat).map (fun n => n + 1)

/-- Index of the first occurrence of character `c`. -/
def findCharIdx (c : Char) : List Char → Option Nat
  | [] => none
  | d :: rest => if d == c then some 0 else (findCharIdx c rest).map (fun n => n + 1)

/-- Python regex `\s` on the ASCII range (space, tab, newline, carriage
return, form feed, vertical tab); the payloads handled here are ASCII or
Japanese text without exotic Unicode whitespace. -/
def pySpace (c : Char) : Bool :=
  c == ' ' || c == Char.ofNat 9 || c == Char.ofNat 10 || c == Char.ofNat 13 ||
  c == Char.ofNat 12 || c == Char.ofNat 11

/-- Strip leading and trailing whitespace (Python `str.strip` / the
`\s*` groups of the fenced-block regex). -/
def trimChars (cs : List Char) : List Char :=
  ((cs.dropWhile pySpace).reverse.dropWhile pySpace).reverse

/-! ### Blog generator: response parsing (blog_generator.py lines 166-190) -/

/-- Article record parsed out of a generation response
(`title` / `content` / `summary` / `tags` fields of the JSON object). -/
structure ArticleData where
  title : String
  content : String
  summary : String
  tags : List String
  deriving DecidableEq, Repr

/-- Opening token of the fenced-code-block regex
`(three backticks)json\s*(.*?)\s*(three backticks)`. -/
def fenceOpen : List Char := "```json".data

/-- Closing token of the fenced-code-block regex. -/
def fenceClose : List Char := "```".data

/-- Model of `re.search(r'```json\s*(.*?)\s*```', content, re.DOTALL)`
followed by `.group(1).strip()`: the text between the first occurrence of
the opening fence and the first closing fence after it, with surrounding
whitespace stripped (the lazy group plus the greedy `\s*` borders resolve
to exactly that).  If the first opening fence has no closing fence after
it, no later opening fence can have one either (every opening fence
contains a closing fence as a prefix), so returning `none` is faithful. -/
def fencedExtract (content : String) : Option String :=
  match findSub content.data fenceOpen with
  | none => none
  | some i =>
    let rest := content.data.drop (i + 7)
    match findSub rest fenceClose with
    | none => none
    | some j => some ⟨trimChars (rest.take j)⟩

/-- Character other than `{` and `}`. -/
def notBrace (c : Char) : Bool := !(c == lbrace) && !(c == rbrace)

/-- Body scanner for the regex `\{(?:[^{}]|{[^{}]*})*\}` positioned just
after the opening `{`.  Each step consumes either one non-brace character
or one complete depth-one group `{[^{}]*}`; a `}` closes the span.  The
regex engine has no other viable backtracking path here, so this
deterministic scan is the exact match semantics.  `fuel` bounds recursion
and is always called with at least the list length. -/
def bodyScan : Nat → List Char → Option (List Char)
  | 0, _ => none
  | _ + 1, [] => none
  | fuel + 1, c :: rest =>
    if c == rbrace then some [rbrace]
    else if c == lbrace then
      let run := rest.takeWhile notBrace
      let rest2 := rest.drop run.length
      match rest2 with
      | [] => none
      | d :: rest3 =>
        if d == rbrace then
          match bodyScan fuel rest3 with
          | none => none
          | some t => some (lbrace :: (run ++ rbrace :: t))
        else none
    else
      match bodyScan fuel rest with
      | none => none
      | some t => some (c :: t)

/-- Leftmost match of `\{(?:[^{}]|{[^{}]*})*\}` (the "loose JSON object"
fallback pattern): try a span at each `{` from the left. -/
def braceSearch : List Char → Option (List Char)
  | [] => none
  | c :: rest =>
    if c == lbrace then
      match bodyScan (rest.length + 1) rest with
      | some body => some (lbrace :: body)
      | none => braceSearch rest
    else braceSearch rest

/-- Model of `re.search(r'\{(?:[^{}]|{[^{}]*})*\}', content, re.DOTALL)`. -/
def braceExtract (content : String) : Option String :=
  (braceSearch content.data).map (fun l => ⟨l⟩)

/-- Outcome of the parse stage.  `fail` records the message of the raised
`Exception` and, separately, the truncated snippet that is written to the
error log (`logger.error(f"受信内容: {content[:500]}")`); the snippet is
not part of the exception. -/
inductive ParseResult where
  | ok (a : ArticleData)
  | fail (exnMessage : String) (loggedSnippet : String)
  deriving DecidableEq, Repr

/-- Fixed message of the exception raised when every JSON-extraction
strategy fails (blog_generator.py line 190). -/
def genFailMsg : String := "Claude APIからの適切なJSON応答を取得できませんでした"

/-- Parse stage of `_generate_with_claude` (blog_generator.py lines
166-190), parameterised by the external `json.loads` collaborator
`jloads`.  Faithful control flow: direct parse first; on failure, the
fenced-block extraction — and if a fenced block is found, a parse failure
of its payload is raised inside the fallback handler, so the brace-span
pattern is only ever searched when no fenced block exists; a final
failure raises the fixed message and logs the 500-character snippet. -/
def parseResponse (jloads : String → Option ArticleData) (content : String) : ParseResult :=
  match jloads content with
  | some a => ParseResult.ok a
  | none =>
    match fencedExtract content with
    | some s =>
      match jloads s with
      | some a => ParseResult.ok a
      | none => ParseResult.fail genFailMsg (pyTake content 500)
    | none =>
      match braceExtract content with
      | some s =>
        match jloads s with
        | some a => ParseResult.ok a
        | none => ParseResult.fail genFailMsg (pyTake content 500)
      | none => ParseResult.fail genFailMsg (pyTake content 500)

/-! ### Blog generator: retry loop (blog_generator.py lines 151-199) -/

/-- Errors escaping `_generate_with_claude`: a re-raised backend
exception, or the fixed-message exception raised after parse failure
(with the snippet that went to the log). -/
inductive GenError where
  | backend (msg : String)
  | parseFail (msg : String) (loggedSnippet : String)
  deriving DecidableEq, Repr

/-- Observable outcome of one `_generate_with_claude` call: the returned
article or propagated error, the sequence of `time.sleep` delays (in
seconds, exact rational arithmetic), and how many backend invocations
were made. -/
structure GenOutcome where
  result : Except GenError ArticleData
  delays : List ℚ
  calls : Nat

/-- `max_retries = 3` (blog_generator.py line 151). -/
def maxRetries : Nat := 3

/-- The retry test `"overloaded" in str(e).lower()`. -/
def overloadCheck (msg : String) : Bool := pyIn "overloaded" (pyLower msg)

/-- The `for attempt in range(max_retries)` loop of
`_generate_with_claude`.  `backend n` is the outcome of the `n`-th
streamed Anthropic call (accumulated text, or the exception message);
`jitter n` is the value drawn by `random.uniform(0, 1)` on attempt `n`.
A backend success goes to JSON parsing, whose failure raises from inside
the fallback handler and is therefore never retried; a backend exception
is retried only when its message passes `overloadCheck` and
`attempt < max_retries - 1`, sleeping `2 ** attempt + jitter`. -/
def genGo (jloads : String → Option ArticleData) (backend : Nat → Except String String)
    (jitter : Nat → ℚ) : Nat → Nat → GenOutcome
  | 0, _ => ⟨Except.error (GenError.backend ""), [], 0⟩
  | rem + 1, attempt =>
    match backend attempt with
    | Except.ok content =>
      match parseResponse jloads content with
      | ParseResult.ok a => ⟨Except.ok a, [], 1⟩
      | ParseResult.fail m snip => ⟨Except.error (GenError.parseFail m snip), [], 1⟩
    | Except.error msg =>
      if overloadCheck msg && decide (attempt < maxRetries - 1) then
        let w : ℚ := (2 : ℚ) ^ attempt + jitter attempt
        let rest := genGo jloads backend jitter rem (attempt + 1)
        ⟨rest.result, w :: rest.delays, rest.calls + 1⟩
      else ⟨Except.error (GenError.backend msg), [], 1⟩

/-- `_generate_with_claude` as a whole: run the loop from attempt 0 with
the full retry budget. -/
def generateWithClaude (jloads : String → Option ArticleData)
    (backend : Nat → Except String String) (jitter : Nat → ℚ) : GenOutcome :=
  genGo jloads backend jitter maxRetries 0

/-! ### Blog generator: minimum-length enforcement (lines 201-259) -/

/-- Python exceptions relevant to the length-enforcement path. -/
inductive PyExn where
  | nameError (name : String)
  deriving DecidableEq, Repr

/-- Model of `re.sub(r'<[^>]+>', '', content)`: drop every maximal
`<` … `>` span containing at least one non-`>` character between the
angle brackets; an unmatched `<` (no later `>`, or an immediately
following `>`) is kept.  `fuel` is always called with the list length. -/
def stripTagsGo : Nat → List Char → List Char
  | 0, cs => cs
  | _ + 1, [] => []
  | fuel + 1, c :: rest =>
    if c == '<' then
      match findCharIdx '>' rest with
      | some j =>
        if 0 < j then stripTagsGo fuel (rest.drop (j + 1))
        else c :: stripTagsGo fuel rest
      | none => c :: stripTagsGo fuel rest
    else c :: stripTagsGo fuel rest

/-- Strip HTML tags as `_ensure_minimum_length` does before counting
characters. -/
def stripTags (s : String) : String := ⟨stripTagsGo s.data.length s.data⟩

/-- `_ensure_minimum_length` (blog_generator.py lines 201-215).  When the
stripped character count is below the configured minimum, line 213
evaluates `self._expand_article(article_data, min_characters,
episode_url)` — and `episode_url` is not bound in the method scope (not a
parameter, not a local, not a module global), so Python raises
`NameError('episode_url')` before `_expand_article` is ever entered. -/
def ensureMinimumLength (minCharacters : Nat) (articleData : ArticleData) :
    Except PyExn ArticleData :=
  let contentText := stripTags articleData.content
  if contentText.length < minCharacters then
    Except.error (PyExn.nameError "episode_url")
  else Except.ok articleData

/-- `_expand_article`'s fallback structure (blog_generator.py lines
251-259): the expansion call's outcome is taken when it succeeds, and the
original article is returned when the call raises.  (This method is
unreachable from `_ensure_minimum_length` because of the `NameError`
above; it is modelled to state what the except-clause on lines 257-259
does.) -/
def expandArticle (articleData : ArticleData)
    (expansionResult : Except GenError ArticleData) : ArticleData :=
  match expansionResult with
  | Except.ok expanded => expanded
  | Except.error _ => articleData

/-! ### Usage limiter (usage_limiter.py)

Day keys `"%Y-%m-%d"` compare lexicographically exactly as the days they
denote compare chronologically, so a key is modelled as the JST day
number (seconds since epoch divided by 86400).  The wall clock
(`datetime.utcnow()`) is an explicit `utc` parameter in seconds. -/

/-- Per-day record `{"total": …, "ips": {…}}`. -/
structure DayRecord where
  total : Nat
  ips : List (String × Nat)
  deriving DecidableEq, Repr

/-- The persisted usage log: day key to record, a JSON object modelled as
an association list. -/
abbrev UsageLog := List (Nat × DayRecord)

/-- Dictionary lookup on the day-keyed log. -/
def alookup : Nat → UsageLog → Option DayRecord
  | _, [] => none
  | k, (k2, v) :: rest => if k = k2 then some v else alookup k rest

/-- Dictionary write `log[k] = v` (replace the existing entry or append). -/
def setEntry : UsageLog → Nat → DayRecord → UsageLog
  | [], k, v => [(k, v)]
  | (k2, v2) :: rest, k, v =>
    if k2 = k then (k, v) :: rest else (k2, v2) :: setEntry rest k v

/-- Lookup in the per-client map. -/
def slookup : String → List (String × Nat) → Option Nat
  | _, [] => none
  | k, (k2, v) :: rest => if k = k2 then some v else slookup k rest

/-- Write in the per-client map. -/
def setIp : List (String × Nat) → String → Nat → List (String × Nat)
  | [], k, v => [(k, v)]
  | (k2, v2) :: rest, k, v =>
    if k2 = k then (k, v) :: rest else (k2, v2) :: setIp rest k v

/-- Seconds in a calendar day. -/
def secondsPerDay : Nat := 86400

/-- Fixed-timezone offset: JST is UTC+9 (`utcnow() + timedelta(hours=9)`). -/
def jstOffset : Nat := 9 * 3600

/-- JST clock reading for a UTC instant. -/
def jstOf (utc : Nat) : Nat := utc + jstOffset

/-- `get_today_key`: the JST calendar day of the current instant. -/
def getTodayKey (utc : Nat) : Nat := jstOf utc / secondsPerDay

/-- `next_reset` of `get_usage_info` (usage_limiter.py lines 54-55):
today's JST midnight plus one day, i.e. the start of the following JST
day, expressed in JST seconds. -/
def nextResetOf (utc : Nat) : Nat := (getTodayKey utc + 1) * secondsPerDay

/-- Result record of `get_usage_info`. -/
structure UsageInfo where
  totalUsed : Nat
  dailyLimit : Nat
  remaining : Nat
  canUse : Bool
  nextReset : Nat
  deriving DecidableEq, Repr

/-- `get_usage_info` (usage_limiter.py lines 41-64).  `remaining` is
`max(0, daily_limit - total_used)`, which on naturals is truncated
subtraction; `can_use` is `remaining > 0`. -/
def getUsageInfo (dailyLimit utc : Nat) (logData : UsageLog) : UsageInfo :=
  let todayKey := getTodayKey utc
  let todayData := (alookup todayKey logData).getD ⟨0, []⟩
  let totalUsed := todayData.total
  let remaining := dailyLimit - totalUsed
  ⟨totalUsed, dailyLimit, remaining, decide (0 < remaining), nextResetOf utc⟩

/-- Cutoff key of `cleanup_old_logs`: the day key of the JST instant
seven days ago. -/
def cutoffKey (utc : Nat) : Nat := (jstOf utc - 7 * secondsPerDay) / secondsPerDay

/-- `cleanup_old_logs` (usage_limiter.py lines 97-104): delete every
entry whose key is older than the cutoff. -/
def cleanupOldLogs (utc : Nat) (logData : UsageLog) : UsageLog :=
  logData.filter (fun kv => decide (cutoffKey utc ≤ kv.fst))

/-- The mutation block of `use_quota` (usage_limiter.py lines 74-89):
create today's entry when absent, increment today's total, increment the
per-client counter when a client key was supplied, then prune entries
older than the cutoff. -/
def bumpToday (utc : Nat) (clientIp : Option String) (logData : UsageLog) : UsageLog :=
  let todayKey := getTodayKey utc
  let log1 := match alookup todayKey logData with
    | some _ => logData
    | none => setEntry logData todayKey ⟨0, []⟩
  let cur := (alookup todayKey log1).getD ⟨0, []⟩
  let log2 := setEntry log1 todayKey ⟨cur.total + 1, cur.ips⟩
  let log3 := match clientIp with
    | none => log2
    | some ip =>
      let rec2 := (alookup todayKey log2).getD ⟨0, []⟩
      let n := (slookup ip rec2.ips).getD 0
      setEntry log2 todayKey ⟨rec2.total, setIp rec2.ips ip (n + 1)⟩
  cleanupOldLogs utc log3

/-- `use_quota` (usage_limiter.py lines 66-95) under serialized access:
re-check `can_use`; refuse without touching the log when exhausted;
otherwise run the mutation block and persist.  The `save_usage_log` file
write is a collaborator and is modelled as succeeding. -/
def useQuota (dailyLimit utc : Nat) (clientIp : Option String) (logData : UsageLog) :
    Bool × String × UsageLog :=
  let info := getUsageInfo dailyLimit utc logData
  if !info.canUse then (false, "利用上限に達しました", logData)
  else (true, "利用回数を記録しました", bumpToday utc clientIp logData)

/-- Total recorded for the current JST day (0 when no entry exists),
exactly as both `get_usage_info` and `use_quota` read it. -/
def todayTotal (utc : Nat) (logData : UsageLog) : Nat :=
  ((alookup (getTodayKey utc) logData).getD ⟨0, []⟩).total

/-- State of the persisted usage-log file as `load_usage_log` can find
it. -/
inductive FileState where
  | missing
  | unreadable
  | invalidJson
  | valid (logData : UsageLog)

/-- `load_usage_log` (usage_limiter.py lines 22-30): a missing file, an
unreadable file, or a `json.load` failure all yield the empty log. -/
def loadUsageLog : FileState → UsageLog
  | FileState.valid l => l
  | _ => []

/-- `get_usage_info` as reached through the persisted file. -/
def getUsageInfoFile (dailyLimit utc : Nat) (fs : FileState) : UsageInfo :=
  getUsageInfo dailyLimit utc (loadUsageLog fs)

/-- `use_quota` as reached through the persisted file. -/
def useQuotaFile (dailyLimit utc : Nat) (clientIp : Option String) (fs : FileState) :
    Bool × String × UsageLog :=
  useQuota dailyLimit utc clientIp (loadUsageLog fs)

/-- Serialized sequence of `use_quota` calls: for each call, the log it
saw, whether it succeeded, and the log it left behind. -/
def consumeTrace (dailyLimit utc : Nat) :
    List (Option String) → UsageLog → List (UsageLog × Bool × UsageLog)
  | [], _ => []
  | c :: cs, logData =>
    let r := useQuota dailyLimit utc c logData
    (logData, r.fst, r.snd.snd) :: consumeTrace dailyLimit utc cs r.snd.snd

/-- Final log after a serialized sequence of `use_quota` calls. -/
def runConsumes (dailyLimit utc : Nat) : List (Option String) → UsageLog → UsageLog
  | [], logData => logData
  | c :: cs, logData =>
    runConsumes dailyLimit utc cs (useQuota dailyLimit utc c logData).snd.snd

/-! ### Background pipeline (app.py lines 230-360)

The four stage collaborators (download, transcription, generation, the
WordPress client) are an explicit environment of outcomes; the task
record mutated through `app.processing_status[task_id]` is an explicit
state value.  Wall-clock timestamps are dropped (they decide nothing). -/

/-- Severity of one task log entry. -/
inductive LogLevel where
  | info
  | error
  deriving DecidableEq, Repr

/-- One entry of the task's append-only log. -/
structure TaskLogEntry where
  level : LogLevel
  message : String
  deriving DecidableEq, Repr

/-- The mutable task record stored under the task id. -/
structure TaskState where
  currentStep : Nat
  totalSteps : Nat
  stepName : String
  status : String
  error : Option String
  logs : List TaskLogEntry
  result : Option ArticleData
  deriving DecidableEq, Repr

/-- Task record created by `api_process` (app.py lines 82-90) before the
worker starts. -/
def initialTaskState : TaskState :=
  ⟨1, 4, "処理開始", "処理を開始しました", none, [], none⟩

/-- `update_status` (app.py lines 250-273): overwrite the mutable fields
and append one log entry, ERROR when an error is passed, INFO otherwise.
The `result` field is untouched. -/
def updateStatus (t : TaskState) (step total : Nat) (stepName statusMsg : String)
    (error : Option String) : TaskState :=
  { t with
    currentStep := step
    totalSteps := total
    stepName := stepName
    status := statusMsg
    error := error
    logs := t.logs ++ [⟨match error with
      | some _ => LogLevel.error
      | none => LogLevel.info,
      error.getD statusMsg⟩] }

/-- Externally visible actions of one pipeline run, in program order. -/
inductive PipelineEvent where
  | statusUpdate (step : Nat) (stepName : String)
  | storeResult
  | callWordPress
  deriving DecidableEq, Repr

/-- Outcomes supplied by the stage collaborators for one run: the value
returned, or the message of the exception raised. -/
structure PipelineEnv where
  download : Except String String
  transcribe : Except String String
  generation : Except String ArticleData
  wpConfigured : Bool
  wpPost : Except String Bool

/-- The outer exception handler of `process_podcast_background` (app.py
lines 339-360): if generation had already produced an article
(`'article_data' in locals()`), write it to `result` again; record the
error and append an ERROR log entry. -/
def pipelineErrorHandler (t : TaskState) (articleOpt : Option ArticleData)
    (e : String) : TaskState :=
  let msg := "処理エラー: " ++ e
  let t1 := match articleOpt with
    | some a => { t with result := some a }
    | none => t
  { t1 with
    error := some msg
    status := "処理中にエラーが発生しました"
    logs := t1.logs ++ [⟨LogLevel.error, msg⟩] }

/-- `process_podcast_background` (app.py lines 230-360): the four stages
in order, with the article written to the task's `result` field (line
295) after generation succeeds and before the WordPress stage; a
WordPress failure or exception is absorbed at step 4 (lines 321-333), and
any stage exception falls to the outer handler.  Returns the final task
record and the ordered event trace. -/
def processPodcastBackground (env : PipelineEnv) (fileUrl : String)
    (t0 : TaskState) : TaskState × List PipelineEvent :=
  let e1 := PipelineEvent.statusUpdate 1 "音声ダウンロード"
  let t1 := updateStatus t0 1 4 "音声ダウンロード" ("音声をダウンロード中: " ++ fileUrl) none
  match env.download with
  | Except.error e => (pipelineErrorHandler t1 none e, [e1])
  | Except.ok _audioPath =>
    let t2 := updateStatus t1 1 4 "音声ダウンロード" "音声ダウンロード完了" none
    let e3 := PipelineEvent.statusUpdate 2 "文字起こし"
    let t3 := updateStatus t2 2 4 "文字起こし" "Whisperで文字起こし中..." none
    match env.transcribe with
    | Except.error e => (pipelineErrorHandler t3 none e, [e1, e1, e3])
    | Except.ok transcript =>
      let t4 := updateStatus t3 2 4 "文字起こし"
        ("文字起こし完了: " ++ toString transcript.length ++ "文字") none
      let e5 := PipelineEvent.statusUpdate 3 "ブログ記事生成"
      let t5 := updateStatus t4 3 4 "ブログ記事生成" "Claude AIで記事生成中..." none
      match env.generation with
      | Except.error e => (pipelineErrorHandler t5 none e, [e1, e1, e3, e3, e5])
      | Except.ok articleData =>
        let t6 := updateStatus t5 3 4 "ブログ記事生成" ("記事生成完了: " ++ articleData.title) none
        let t7 := { t6 with result := some articleData }
        let e8 := PipelineEvent.statusUpdate 4 "WordPress投稿"
        let t8 := updateStatus t7 4 4 "WordPress投稿" "WordPress投稿中..." none
        let evs := [e1, e1, e3, e3, e5, e5, PipelineEvent.storeResult, e8]
        if env.wpConfigured then
          let evs2 := evs ++ [PipelineEvent.callWordPress]
          match env.wpPost with
          | Except.ok true =>
            (updateStatus t8 4 4 "完了" "すべての処理が完了しました！WordPress投稿成功" none,
             evs2 ++ [PipelineEvent.statusUpdate 4 "完了"])
          | Except.ok false =>
            (updateStatus t8 4 4 "完了" "記事生成は完了しましたが、WordPress投稿に失敗しました" none,
             evs2 ++ [PipelineEvent.statusUpdate 4 "完了"])
          | Except.error we =>
            (updateStatus t8 4 4 "完了" ("記事生成完了（WordPress投稿エラー: " ++ we ++ "）") none,
             evs2 ++ [PipelineEvent.statusUpdate 4 "完了"])
        else
          (updateStatus t8 4 4 "完了" "記事生成完了（WordPress設定なしのため投稿はスキップ）" none,
           evs ++ [PipelineEvent.statusUpdate 4 "完了"])

/-! ### WordPress poster (wordpress_poster.py) -/

/-- Drop trailing `/` characters (Python `str.rstrip('/')`). -/
def rstripSlash (s : String) : String :=
  ⟨(s.data.reverse.dropWhile (fun c => c == '/')).reverse⟩

/-- Does `s` end with `pat`? -/
def isSuffixChars (pat s : List Char) : Bool :=
  isPrefixChars pat.reverse s.reverse

/-- Left-to-right non-overlapping removal of every occurrence of `pat`
(Python `str.replace(pat, '')`); `pat` is non-empty at the call site. -/
def replaceAllGo : Nat → List Char → List Char → List Char
  | 0, s, _ => s
  | _ + 1, [], _ => []
  | fuel + 1, c :: rest, pat =>
    if isPrefixChars pat (c :: rest) then
      replaceAllGo fuel ((c :: rest).drop pat.length) pat
    else c :: replaceAllGo fuel rest pat

/-- Python `s.replace(pat, '')`. -/
def removeAll (s pat : String) : String :=
  ⟨replaceAllGo s.data.length s.data pat.data⟩

/-- Site-address normalization of the `WordPressPoster` constructor
(wordpress_poster.py lines 18-22): strip trailing slashes, then — when
the result ends in `/wp-admin` — remove every occurrence of `/wp-admin`
(`str.replace` replaces all occurrences, not only the suffix). -/
def normalizeSiteUrl (raw : String) : String :=
  let s := rstripSlash raw
  if isSuffixChars "/wp-admin".data s.data then removeAll s "/wp-admin" else s

/-- `_validate_settings` (wordpress_poster.py lines 43-45): all of the
normalized site address, the username and the password are non-empty. -/
def validateSettings (siteUrl username password : String) : Bool :=
  !(siteUrl == "") && !(username == "") && !(password == "")

/-- Publishing configuration as the poster receives it. -/
structure WpSettings where
  siteUrl : String
  username : String
  password : String
  deriving DecidableEq, Repr

/-- Response to the login POST: the URL the session was finally
redirected to. -/
structure WpResponse where
  url : String
  deriving DecidableEq, Repr

/-- Response to the submission POST: final URL and the text of an
explicit error element when one is present. -/
structure SubmitResponse where
  url : String
  errorDivText : Option String
  deriving DecidableEq, Repr

/-- HTTP/HTML collaborator outcomes for one `post_article` call.
`Except.error` is a raised request exception; for the two page fetches,
`Option` is whether the expected form was found in the markup (with the
hidden name/value pairs harvested from it). -/
structure WpEnv where
  loginPage : Except String (Option (List (String × String)))
  loginPost : Except String WpResponse
  editorPage : Except String (Option (List (String × String)))
  submitPost : Except String SubmitResponse

/-- Network requests the poster can issue, in program order. -/
inductive WpCall where
  | getLoginPage
  | postLogin
  | getNewPost
  | postSubmit
  deriving DecidableEq, Repr

/-- Lookup in harvested hidden form fields. -/
def flookup : String → List (String × String) → Option String
  | _, [] => none
  | k, (k2, v) :: rest => if k = k2 then some v else flookup k rest

/-- `_login` (wordpress_poster.py lines 72-124): fetch the login page,
fail when the request raises or the `loginform` is absent; submit the
credentials; succeed exactly when the final URL contains `wp-admin` and
does not contain `login`.  Every exception path returns `false`. -/
def wpLogin (env : WpEnv) : Bool × List WpCall :=
  match env.loginPage with
  | Except.error _ => (false, [WpCall.getLoginPage])
  | Except.ok none => (false, [WpCall.getLoginPage])
  | Except.ok (some _hiddenFields) =>
    match env.loginPost with
    | Except.error _ => (false, [WpCall.getLoginPage, WpCall.postLogin])
    | Except.ok resp =>
      (pyIn "wp-admin" resp.url && !(pyIn "login" resp.url),
       [WpCall.getLoginPage, WpCall.postLogin])

/-- The hidden fields `_post_article` requires (wordpress_poster.py line
155): anti-forgery token, author identifier, entry identifier. -/
def requiredFields : List String := ["_wpnonce", "user_ID", "post_ID"]

/-- `_post_article` (wordpress_poster.py lines 126-212): fetch the editor
page, harvest the first form's hidden fields (an empty set when no form
exists), fail without submitting when any required field is absent;
otherwise submit once and classify the outcome from the final URL
(`post.php` with success-message code 6 or 1, or the `edit.php`
listing); anything else — including an explicit error element — is a
failure.  Every exception path returns `false`. -/
def wpSubmitArticle (env : WpEnv) : Bool × List WpCall :=
  match env.editorPage with
  | Except.error _ => (false, [WpCall.getNewPost])
  | Except.ok formsOpt =>
    let hiddenFields := formsOpt.getD []
    if requiredFields.all (fun f => (flookup f hiddenFields).isSome) then
      match env.submitPost with
      | Except.error _ => (false, [WpCall.getNewPost, WpCall.postSubmit])
      | Except.ok resp =>
        let okUrl := (pyIn "post.php" resp.url &&
            (pyIn "message=6" resp.url || pyIn "message=1" resp.url)) ||
          pyIn "edit.php" resp.url
        (okUrl, [WpCall.getNewPost, WpCall.postSubmit])
    else (false, [WpCall.getNewPost])

/-- `post_article` (wordpress_poster.py lines 32-70): validate the
settings first and short-circuit to `false` with no network call;
otherwise log in and, only on login success, submit.  The surrounding
`try/except` of `_post_via_browser_automation` turns every raised
exception into `false`, so this model is a total function into `Bool`
together with the ordered list of requests issued. -/
def postArticle (settings : WpSettings) (_articleData : ArticleData) (env : WpEnv) :
    Bool × List WpCall :=
  let siteUrl := normalizeSiteUrl settings.siteUrl
  if !(validateSettings siteUrl settings.username settings.password) then (false, [])
  else
    let login := wpLogin env
    if login.fst then
      let sub := wpSubmitArticle env
      (sub.fst, login.snd ++ sub.snd)
    else (false, login.snd)

/-! ## Helper lemmas -/

theorem alookup_setEntry_self (l : UsageLog) (k : Nat) (v : DayRecord) :
    alookup k (setEntry l k v) = some v := by
  induction l with
  | nil => simp [setEntry, alookup]
  | cons kv rest ih =>
    obtain ⟨k2, v2⟩ := kv
    by_cases h : k2 = k
    · subst h
      simp [setEntry, alookup]
    · simp [setEntry, alookup, h, Ne.symm h, ih]

theorem alookup_filter_ge (m k : Nat) (l : UsageLog) (h : m ≤ k) :
    alookup k (l.filter (fun kv => decide (m ≤ kv.fst))) = alookup k l := by
  induction l with
  | nil => rfl
  | cons kv rest ih =>
    obtain ⟨k2, v2⟩ := kv
    by_cases h2 : k = k2
    · subst h2
      simp [List.filter_cons, alookup, h, ih]
    · by_cases h3 : m ≤ k2 <;> simp [List.filter_cons, alookup, h2, h3, ih]

theorem cutoffKey_le_todayKey (utc : Nat) : cutoffKey utc ≤ getTodayKey utc :=
  Nat.div_le_div_right (Nat.sub_le _ _)

theorem alookup_cleanup_today (utc : Nat) (l : UsageLog) :
    alookup (getTodayKey utc) (cleanupOldLogs utc l) = alookup (getTodayKey utc) l :=
  alookup_filter_ge _ _ _ (cutoffKey_le_todayKey utc)

theorem alookup_bumpToday (utc : Nat) (clientIp : Option String) (logData : UsageLog) :
    ∃ r, alookup (getTodayKey utc) (bumpToday utc clientIp logData) = some r ∧
      r.total = todayTotal utc logData + 1 := by
  unfold bumpToday
  rw [alookup_cleanup_today]
  rcases h0 : alookup (getTodayKey utc) logData with _ | r0
  all_goals simp only [h0, alookup_setEntry_self, Option.getD]
  · rcases clientIp with _ | ip
    · exact ⟨_, alookup_setEntry_self _ _ _, by simp [todayTotal, h0]⟩
    · simp only [alookup_setEntry_self, Option.getD]
      exact ⟨_, rfl, by simp [todayTotal, h0]⟩
  · rcases clientIp with _ | ip
    · exact ⟨_, alookup_setEntry_self _ _ _, by simp [todayTotal, h0]⟩
    · simp only [alookup_setEntry_self, Option.getD]
      exact ⟨_, rfl, by simp [todayTotal, h0]⟩

theorem todayTotal_bumpToday (utc : Nat) (clientIp : Option String) (logData : UsageLog) :
    todayTotal utc (bumpToday utc clientIp logData) = todayTotal utc logData + 1 := by
  obtain ⟨r, hr, ht⟩ := alookup_bumpToday utc clientIp logData
  simp [todayTotal, hr, ht]

theorem useQuota_refused (dailyLimit utc : Nat) (clientIp : Option String)
    (logData : UsageLog) (h : dailyLimit ≤ todayTotal utc logData) :
    useQuota dailyLimit utc clientIp logData = (false, "利用上限に達しました", logData) := by
  have hz : dailyLimit - todayTotal utc logData = 0 := Nat.sub_eq_zero_of_le h
  unfold todayTotal at hz
  simp [useQuota, getUsageInfo, hz]

theorem useQuota_granted (dailyLimit utc : Nat) (clientIp : Option String)
    (logData : UsageLog) (h : todayTotal utc logData < dailyLimit) :
    useQuota dailyLimit utc clientIp logData =
      (true, "利用回数を記録しました", bumpToday utc clientIp logData) := by
  have hd : decide (0 < dailyLimit - todayTotal utc logData) = true :=
    decide_eq_true (Nat.sub_pos_of_lt h)
  unfold todayTotal at hd h
  simp [useQuota, getUsageInfo, hd]
  exact h

theorem consumeAll_succeed (dailyLimit utc : Nat) (clientIps : List (Option String))
    (logData : UsageLog)
    (h : todayTotal utc logData + clientIps.length ≤ dailyLimit) :
    (∀ e ∈ consumeTrace dailyLimit utc clientIps logData, e.2.1 = true) ∧
    todayTotal utc (runConsumes dailyLimit utc clientIps logData) =
      todayTotal utc logData + clientIps.length := by
  induction clientIps generalizing logData with
  | nil => simp [consumeTrace, runConsumes]
  | cons c cs ih =>
    have hlt : todayTotal utc logData < dailyLimit := by
      simp at h
      omega
    have hq := useQuota_granted dailyLimit utc c logData hlt
    have hb := todayTotal_bumpToday utc c logData
    have hstep : todayTotal utc (useQuota dailyLimit utc c logData).snd.snd +
        cs.length ≤ dailyLimit := by
      rw [hq]
      simp only [hb]
      simp at h ⊢
      omega
    obtain ⟨hall, hrun⟩ := ih _ hstep
    refine ⟨?_, ?_⟩
    · intro e he
      simp only [consumeTrace, List.mem_cons] at he
      rcases he with he | he
      · subst he
        rw [hq]
      · exact hall e he
    · simp only [runConsumes]
      rw [hrun, hq]
      simp only [hb]
      simp
      omega

/-- C3: under serialized access, every `use_quota` call in a sequence
either succeeds and leaves today's stored total at most the configured
daily limit, or is refused and leaves the ledger exactly as it found
it. -/
theorem c3_quota_invariant (dailyLimit utc : Nat) (clientIps : List (Option String))
    (logData : UsageLog) :
    ∀ e ∈ consumeTrace dailyLimit utc clientIps logData,
      (e.2.1 = true → todayTotal utc e.2.2 ≤ dailyLimit) ∧
      (e.2.1 = false → e.2.2 = e.1) := by
  induction clientIps generalizing logData with
  | nil => intro e he; simp [consumeTrace] at he
  | cons c cs ih =>
    intro e he
    simp only [consumeTrace, List.mem_cons] at he
    rcases he with he | he
    · subst he
      by_cases hlt : todayTotal utc logData < dailyLimit
      · have hq := useQuota_granted dailyLimit utc c logData hlt
        refine ⟨fun _ => ?_, fun hf => ?_⟩
        · rw [hq]
          simp only [todayTotal_bumpToday]
          omega
        · rw [hq] at hf
          simp at hf
      · have hq := useQuota_refused dailyLimit utc c logData (not_lt.mp hlt)
        refine ⟨fun ht => ?_, fun _ => ?_⟩
        · rw [hq] at ht
          simp at ht
        · rw [hq]
    · exact ih _ e he

/-- C3 witness: one consume on an empty ledger with limit 1 succeeds and
leaves today's total at the limit. -/
theorem c3_quota_invariant_witness :
    (((([] : UsageLog), true, [((0 : Nat), (⟨1, []⟩ : DayRecord))]) ∈
        consumeTrace 1 0 [none] []) ∧
      todayTotal 0 [((0 : Nat), (⟨1, []⟩ : DayRecord))] ≤ 1) :=
  ⟨by decide,
   (c3_quota_invariant 1 0 [none] [] ([], true, [((0 : Nat), (⟨1, []⟩ : DayRecord))])
      (by decide)).1 rfl⟩

/-- C9: `get_usage_info` reports `remaining = max(0, limit − used)`,
`can_use` exactly when `remaining > 0`, and the next reset at the start
of the following JST day; starting from a day with no usage, exactly
`daily_limit` consumes all succeed and the final report has
`remaining = 0` and `can_use = false`. -/
theorem c9_usage_info (dailyLimit utc : Nat) (logData : UsageLog)
    (clientIps : List (Option String)) :
    ((getUsageInfo dailyLimit utc logData).totalUsed = todayTotal utc logData ∧
     ((getUsageInfo dailyLimit utc logData).remaining : ℤ) =
       max 0 ((dailyLimit : ℤ) - (todayTotal utc logData : ℤ)) ∧
     ((getUsageInfo dailyLimit utc logData).canUse = true ↔
       0 < (getUsageInfo dailyLimit utc logData).remaining) ∧
     (getUsageInfo dailyLimit utc logData).nextReset % secondsPerDay = 0 ∧
     jstOf utc < (getUsageInfo dailyLimit utc logData).nextReset ∧
     (getUsageInfo dailyLimit utc logData).nextReset ≤ jstOf utc + secondsPerDay) ∧
    (alookup (getTodayKey utc) logData = none → clientIps.length = dailyLimit →
      (∀ e ∈ consumeTrace dailyLimit utc clientIps logData, e.2.1 = true) ∧
      (getUsageInfo dailyLimit utc
          (runConsumes dailyLimit utc clientIps logData)).remaining = 0 ∧
      (getUsageInfo dailyLimit utc
          (runConsumes dailyLimit utc clientIps logData)).canUse = false) := by
  constructor
  · refine ⟨rfl, ?_, ?_, ?_, ?_, ?_⟩
    · show ((dailyLimit - todayTotal utc logData : Nat) : ℤ) = _
      omega
    · show decide (0 < dailyLimit - todayTotal utc logData) = true ↔
        0 < dailyLimit - todayTotal utc logData
      simp
    · show (getTodayKey utc + 1) * secondsPerDay % secondsPerDay = 0
      simp [Nat.mul_mod_left]
    · show jstOf utc < (getTodayKey utc + 1) * secondsPerDay
      have hdm := Nat.div_add_mod (jstOf utc) 86400
      have hmlt : jstOf utc % 86400 < 86400 := Nat.mod_lt _ (by norm_num)
      simp only [getTodayKey, secondsPerDay]
      omega
    · show (getTodayKey utc + 1) * secondsPerDay ≤ jstOf utc + secondsPerDay
      have hdm := Nat.div_add_mod (jstOf utc) 86400
      simp only [getTodayKey, secondsPerDay]
      omega
  · intro htoday hlen
    have h0 : todayTotal utc logData = 0 := by simp [todayTotal, htoday]
    have hall := consumeAll_succeed dailyLimit utc clientIps logData
      (by rw [h0, hlen]; omega)
    refine ⟨hall.1, ?_, ?_⟩
    · show dailyLimit - todayTotal utc (runConsumes dailyLimit utc clientIps logData) = 0
      rw [hall.2, h0, hlen]
      omega
    · show decide (0 < dailyLimit -
          todayTotal utc (runConsumes dailyLimit utc clientIps logData)) = false
      rw [hall.2, h0, hlen]
      simp

/-- C9 witness: two consumes against limit 2 starting from an empty
ledger exhaust the quota. -/
theorem c9_usage_info_witness :
    (alookup (getTodayKey 0) ([] : UsageLog) = none) ∧
    (getUsageInfo 2 0 (runConsumes 2 0 [none, none] [])).remaining = 0 ∧
    (getUsageInfo 2 0 (runConsumes 2 0 [none, none] [])).canUse = false :=
  ⟨rfl, ((c9_usage_info 2 0 [] [none, none]).2 rfl rfl).2.1,
   ((c9_usage_info 2 0 [] [none, none]).2 rfl rfl).2.2⟩

/-- C10: a missing, unreadable or syntactically invalid usage-log file is
loaded as an empty ledger, so usage reporting shows zero used, the full
limit remaining and `can_use` true (the limit being positive), and a
subsequent consume succeeds, starting a fresh record for today. -/
theorem c10_corrupt_store_resets (dailyLimit utc : Nat) (clientIp : Option String)
    (fs : FileState) (hpos : 0 < dailyLimit)
    (hbad : fs = FileState.missing ∨ fs = FileState.unreadable ∨
      fs = FileState.invalidJson) :
    (getUsageInfoFile dailyLimit utc fs).totalUsed = 0 ∧
    (getUsageInfoFile dailyLimit utc fs).remaining = dailyLimit ∧
    (getUsageInfoFile dailyLimit utc fs).canUse = true ∧
    (useQuotaFile dailyLimit utc clientIp fs).fst = true ∧
    ∃ r, alookup (getTodayKey utc)
        (useQuotaFile dailyLimit utc clientIp fs).snd.snd = some r ∧ r.total = 1 := by
  have hload : loadUsageLog fs = [] := by
    rcases hbad with h | h | h <;> subst h <;> rfl
  have h0 : todayTotal utc ([] : UsageLog) = 0 := rfl
  have hlt : todayTotal utc ([] : UsageLog) < dailyLimit := by rw [h0]; exact hpos
  have hq := useQuota_granted dailyLimit utc clientIp [] hlt
  obtain ⟨r, hr, hrt⟩ := alookup_bumpToday utc clientIp []
  refine ⟨?_, ?_, ?_, ?_, ?_⟩
  · simp [getUsageInfoFile, hload, getUsageInfo, todayTotal, alookup]
  · simp [getUsageInfoFile, hload, getUsageInfo, todayTotal, alookup]
  · simp [getUsageInfoFile, hload, getUsageInfo, todayTotal, alookup]
    exact hpos
  · simp [useQuotaFile, hload, hq]
  · refine ⟨r, ?_, ?_⟩
    · simp [useQuotaFile, hload, hq]
      exact hr
    · rw [hrt, h0]

/-! ## Demonstration values for the generation client -/

/-- Small article value used as a concrete parse output. -/
def articleDemo : ArticleData := ⟨"T", "C", "S", []⟩

/-- A well-formed JSON object literal (the braces written via hex
escapes). -/
def braceDemoStr : String := "\x7b\"t\":1\x7d"

/-- Stand-in for `json.loads` on the concrete strings exercised below:
exactly the object literal `braceDemoStr` parses, everything else (plain
words, fenced-block payloads that are not JSON, text with surrounding
prose) raises `JSONDecodeError`, i.e. returns `none`. -/
def jloadsDemo : String → Option ArticleData :=
  fun s => if s = braceDemoStr then some articleDemo else none

/-- Backend that raises an overload error on its first three invocations
and would succeed on the fourth. -/
def backendOverloadThree : Nat → Except String String :=
  fun n => if n < 3 then Except.error "Overloaded" else Except.ok braceDemoStr

/-- Backend that raises an overload error on its first two invocations
and succeeds on the third. -/
def backendOverloadTwo : Nat → Except String String :=
  fun n => if n < 2 then Except.error "overloaded" else Except.ok braceDemoStr

/-- Backend whose first failure is not overload-related. -/
def backendBoom : Nat → Except String String := fun _ => Except.error "boom"

/-- Deterministic stand-in for the uniform jitter draw. -/
def jitterHalf : Nat → ℚ := fun _ => 1 / 2

/-- Raw response with a fenced json block whose payload is not JSON,
followed by a parseable brace span. -/
def cexContent : String := "```json bad``` \x7b\"t\":1\x7d"

/-! ## Generation client theorems -/

/-- C1: the code is wrong here.  Whenever the generated content, stripped
of markup, is shorter than the configured minimum, `_ensure_minimum_length`
evaluates the unbound name `episode_url` (blog_generator.py line 213) and
raises `NameError` instead of issuing the expansion pass, so
`generate_article` fails instead of expanding or falling back. -/
theorem c1_underlength_raises_name_error (minCharacters : Nat)
    (articleData : ArticleData)
    (h : (stripTags articleData.content).length < minCharacters) :
    ensureMinimumLength minCharacters articleData =
      Except.error (PyExn.nameError "episode_url") := by
  simp [ensureMinimumLength, h]

/-- Concrete under-length article for the C1 failing input. -/
def articleShort : ArticleData := ⟨"短いタイトル", "<p>abc</p>", "要約", []⟩

/-- C1 witness: the default minimum of 4000 characters with a 3-character
article triggers the `NameError` path. -/
theorem c1_underlength_raises_name_error_witness :
    (stripTags articleShort.content).length < 4000 ∧
    ensureMinimumLength 4000 articleShort =
      Except.error (PyExn.nameError "episode_url") :=
  ⟨by decide, c1_underlength_raises_name_error 4000 articleShort (by decide)⟩

/-- C2 counterexample: a backend that fails with an overload error on
three consecutive invocations and would succeed on the fourth makes
`generate` fail — the loop allows three attempts in total, so the third
overload error is re-raised and the fourth invocation never happens. -/
theorem c2_retry_counterexample :
    backendOverloadThree 0 = Except.error "Overloaded" ∧
    backendOverloadThree 1 = Except.error "Overloaded" ∧
    backendOverloadThree 2 = Except.error "Overloaded" ∧
    overloadCheck "Overloaded" = true ∧
    backendOverloadThree 3 = Except.ok braceDemoStr ∧
    jloadsDemo braceDemoStr = some articleDemo ∧
    (generateWithClaude jloadsDemo backendOverloadThree jitterHalf).result =
      Except.error (GenError.backend "Overloaded") ∧
    (generateWithClaude jloadsDemo backendOverloadThree jitterHalf).calls = 3 :=
  ⟨rfl, rfl, rfl, by decide, rfl, by simp [jloadsDemo], rfl, rfl⟩

/-- C2 (amended): with two consecutive overload failures followed by a
success, `generate` succeeds after three invocations and the two backoff
delays are strictly increasing; with three consecutive overload failures
the third error propagates after three invocations; a first failure that
is not overload-related propagates immediately with no retry and no
delay. -/
theorem c2_retry_amended (jloads : String → Option ArticleData)
    (backend : Nat → Except String String) (jitter : Nat → ℚ)
    (hj : ∀ i, 0 ≤ jitter i ∧ jitter i < 1) :
    (∀ m0 m1 c a, backend 0 = Except.error m0 → overloadCheck m0 = true →
      backend 1 = Except.error m1 → overloadCheck m1 = true →
      backend 2 = Except.ok c → jloads c = some a →
      (generateWithClaude jloads backend jitter).result = Except.ok a ∧
      (generateWithClaude jloads backend jitter).calls = 3 ∧
      ∃ d0 d1, (generateWithClaude jloads backend jitter).delays = [d0, d1] ∧
        d0 < d1) ∧
    (∀ m0 m1 m2, backend 0 = Except.error m0 → overloadCheck m0 = true →
      backend 1 = Except.error m1 → overloadCheck m1 = true →
      backend 2 = Except.error m2 →
      (generateWithClaude jloads backend jitter).result =
        Except.error (GenError.backend m2) ∧
      (generateWithClaude jloads backend jitter).calls = 3) ∧
    (∀ m, backend 0 = Except.error m → overloadCheck m = false →
      (generateWithClaude jloads backend jitter).result =
        Except.error (GenError.backend m) ∧
      (generateWithClaude jloads backend jitter).calls = 1 ∧
      (generateWithClaude jloads backend jitter).delays = []) := by
  refine ⟨?_, ?_, ?_⟩
  · intro m0 m1 c a h0 ho0 h1 ho1 h2 hp
    have hout : generateWithClaude jloads backend jitter =
        ⟨Except.ok a, [(2 : ℚ) ^ 0 + jitter 0, (2 : ℚ) ^ 1 + jitter 1], 3⟩ := by
      simp [generateWithClaude, genGo, h0, ho0, h1, ho1, h2, parseResponse, hp,
        maxRetries]
    rw [hout]
    refine ⟨rfl, rfl, (2 : ℚ) ^ 0 + jitter 0, (2 : ℚ) ^ 1 + jitter 1, rfl, ?_⟩
    have e0 : (2 : ℚ) ^ 0 = 1 := by norm_num
    have e1 : (2 : ℚ) ^ 1 = 2 := by norm_num
    rw [e0, e1]
    have hj0 := (hj 0).2
    have hj1 := (hj 1).1
    linarith
  · intro m0 m1 m2 h0 ho0 h1 ho1 h2
    have hout : generateWithClaude jloads backend jitter =
        ⟨Except.error (GenError.backend m2),
         [(2 : ℚ) ^ 0 + jitter 0, (2 : ℚ) ^ 1 + jitter 1], 3⟩ := by
      simp [generateWithClaude, genGo, h0, ho0, h1, ho1, h2, maxRetries]
    rw [hout]
    exact ⟨rfl, rfl⟩
  · intro m h0 ho
    have hout : generateWithClaude jloads backend jitter =
        ⟨Except.error (GenError.backend m), [], 1⟩ := by
      simp [generateWithClaude, genGo, h0, ho]
    rw [hout]
    exact ⟨rfl, rfl, rfl⟩

/-- C2 witness: the amended behaviour at a concrete backend with two
overload failures then a success. -/
theorem c2_retry_amended_witness :
    backendOverloadTwo 0 = Except.error "overloaded" ∧
    backendOverloadTwo 1 = Except.error "overloaded" ∧
    backendOverloadTwo 2 = Except.ok braceDemoStr ∧
    ((generateWithClaude jloadsDemo backendOverloadTwo jitterHalf).result =
        Except.ok articleDemo ∧
      (generateWithClaude jloadsDemo backendOverloadTwo jitterHalf).calls = 3 ∧
      ∃ d0 d1,
        (generateWithClaude jloadsDemo backendOverloadTwo jitterHalf).delays =
          [d0, d1] ∧ d0 < d1) :=
  ⟨rfl, rfl, rfl,
   (c2_retry_amended jloadsDemo backendOverloadTwo jitterHalf
      (fun i => by norm_num [jitterHalf])).1 "overloaded" "overloaded"
      braceDemoStr articleDemo rfl (by decide) rfl (by decide) rfl
      (by simp [jloadsDemo])⟩

/-- C5: the retry loop makes between one and three backend invocations;
every invocation that was retried had failed with an overload-indicating
message and was followed by a sleep of exactly `2 ** attempt` time units
plus that attempt's jitter draw (so the delays start at one unit and the
base doubles per attempt); a first failure that is not overload-indicating
propagates immediately after a single call with no sleep. -/
theorem c5_retry_policy (jloads : String → Option ArticleData)
    (backend : Nat → Except String String) (jitter : Nat → ℚ) :
    1 ≤ (generateWithClaude jloads backend jitter).calls ∧
    (generateWithClaude jloads backend jitter).calls ≤ 3 ∧
    (generateWithClaude jloads backend jitter).delays.length =
      (generateWithClaude jloads backend jitter).calls - 1 ∧
    (∀ k, k < (generateWithClaude jloads backend jitter).calls - 1 →
      (∃ m, backend k = Except.error m ∧ overloadCheck m = true) ∧
      (generateWithClaude jloads backend jitter).delays.get? k =
        some ((2 : ℚ) ^ k + jitter k)) ∧
    (∀ m, backend 0 = Except.error m → overloadCheck m = false →
      (generateWithClaude jloads backend jitter).result =
        Except.error (GenError.backend m) ∧
      (generateWithClaude jloads backend jitter).calls = 1 ∧
      (generateWithClaude jloads backend jitter).delays = []) := by
  rcases hb0 : backend 0 with m0 | c0
  · rcases ho0 : overloadCheck m0 with _ | _
    · have hout : generateWithClaude jloads backend jitter =
          ⟨Except.error (GenError.backend m0), [], 1⟩ := by
        simp [generateWithClaude, genGo, hb0, ho0]
      rw [hout]
      refine ⟨by norm_num, by norm_num, rfl, ?_, ?_⟩
      · intro k hk
        simp at hk
      · intro m hm hmo
        injection hm with hmm
        subst hmm
        exact ⟨rfl, rfl, rfl⟩
    · rcases hb1 : backend 1 with m1 | c1
      · rcases ho1 : overloadCheck m1 with _ | _
        · have hout : generateWithClaude jloads backend jitter =
              ⟨Except.error (GenError.backend m1), [(2 : ℚ) ^ 0 + jitter 0], 2⟩ := by
            simp [generateWithClaude, genGo, hb0, ho0, hb1, ho1, maxRetries]
          rw [hout]
          refine ⟨by norm_num, by norm_num, rfl, ?_, ?_⟩
          · intro k hk
            interval_cases k
            exact ⟨⟨m0, hb0, ho0⟩, rfl⟩
          · intro m hm hmo
            injection hm with hmm
            subst hmm
            rw [ho0] at hmo
            exact absurd hmo (by simp)
        · rcases hb2 : backend 2 with m2 | c2
          · have hout : generateWithClaude jloads backend jitter =
                ⟨Except.error (GenError.backend m2),
                 [(2 : ℚ) ^ 0 + jitter 0, (2 : ℚ) ^ 1 + jitter 1], 3⟩ := by
              simp [generateWithClaude, genGo, hb0, ho0, hb1, ho1, hb2, maxRetries]
            rw [hout]
            refine ⟨by norm_num, by norm_num, rfl, ?_, ?_⟩
            · intro k hk
              interval_cases k
              · exact ⟨⟨m0, hb0, ho0⟩, rfl⟩
              · exact ⟨⟨m1, hb1, ho1⟩, rfl⟩
            · intro m hm hmo
              injection hm with hmm
              subst hmm
              rw [ho0] at hmo
              exact absurd hmo (by simp)
          · rcases hp2 : parseResponse jloads c2 with a | ⟨pm, psnip⟩
            · have hout : generateWithClaude jloads backend jitter =
                  ⟨Except.ok a, [(2 : ℚ) ^ 0 + jitter 0, (2 : ℚ) ^ 1 + jitter 1], 3⟩ := by
                simp [generateWithClaude, genGo, hb0, ho0, hb1, ho1, hb2, hp2,
                  maxRetries]
              rw [hout]
              refine ⟨by norm_num, by norm_num, rfl, ?_, ?_⟩
              · intro k hk
                interval_cases k
                · exact ⟨⟨m0, hb0, ho0⟩, rfl⟩
                · exact ⟨⟨m1, hb1, ho1⟩, rfl⟩
              · intro m hm hmo
                injection hm with hmm
                subst hmm
                rw [ho0] at hmo
                exact absurd hmo (by simp)
            · have hout : generateWithClaude jloads backend jitter =
                  ⟨Except.error (GenError.parseFail pm psnip),
                   [(2 : ℚ) ^ 0 + jitter 0, (2 : ℚ) ^ 1 + jitter 1], 3⟩ := by
                simp [generateWithClaude, genGo, hb0, ho0, hb1, ho1, hb2, hp2,
                  maxRetries]
              rw [hout]
              refine ⟨by norm_num, by norm_num, rfl, ?_, ?_⟩
              · intro k hk
                interval_cases k
                · exact ⟨⟨m0, hb0, ho0⟩, rfl⟩
                · exact ⟨⟨m1, hb1, ho1⟩, rfl⟩
              · intro m hm hmo
                injection hm with hmm
                subst hmm
                rw [ho0] at hmo
                exact absurd hmo (by simp)
      · rcases hp1 : parseResponse jloads c1 with a | ⟨pm, psnip⟩
        · have hout : generateWithClaude jloads backend jitter =
              ⟨Except.ok a, [(2 : ℚ) ^ 0 + jitter 0], 2⟩ := by
            simp [generateWithClaude, genGo, hb0, ho0, hb1, hp1, maxRetries]
          rw [hout]
          refine ⟨by norm_num, by norm_num, rfl, ?_, ?_⟩
          · intro k hk
            interval_cases k
            exact ⟨⟨m0, hb0, ho0⟩, rfl⟩
          · intro m hm hmo
            injection hm with hmm
            subst hmm
            rw [ho0] at hmo
            exact absurd hmo (by simp)
        · have hout : generateWithClaude jloads backend jitter =
              ⟨Except.error (GenError.parseFail pm psnip), [(2 : ℚ) ^ 0 + jitter 0], 2⟩ := by
            simp [generateWithClaude, genGo, hb0, ho0, hb1, hp1, maxRetries]
          rw [hout]
          refine ⟨by norm_num, by norm_num, rfl, ?_, ?_⟩
          · intro k hk
            interval_cases k
            exact ⟨⟨m0, hb0, ho0⟩, rfl⟩
          · intro m hm hmo
            injection hm with hmm
            subst hmm
            rw [ho0] at hmo
            exact absurd hmo (by simp)
  · rcases hp0 : parseResponse jloads c0 with a | ⟨pm, psnip⟩
    · have hout : generateWithClaude jloads backend jitter = ⟨Except.ok a, [], 1⟩ := by
        simp [generateWithClaude, genGo, hb0, hp0]
      rw [hout]
      refine ⟨by norm_num, by norm_num, rfl, ?_, ?_⟩
      · intro k hk
        simp at hk
      · intro m hm hmo
        exact absurd hm (by simp)
    · have hout : generateWithClaude jloads backend jitter =
          ⟨Except.error (GenError.parseFail pm psnip), [], 1⟩ := by
        simp [generateWithClaude, genGo, hb0, hp0]
      rw [hout]
      refine ⟨by norm_num, by norm_num, rfl, ?_, ?_⟩
      · intro k hk
        simp at hk
      · intro m hm hmo
        exact absurd hm (by simp)

/-- C5 witness: a non-overload first failure propagates after exactly one
call with no delay. -/
theorem c5_retry_policy_witness :
    backendBoom 0 = Except.error "boom" ∧ overloadCheck "boom" = false ∧
    (generateWithClaude jloadsDemo backendBoom jitterHalf).result =
      Except.error (GenError.backend "boom") ∧
    (generateWithClaude jloadsDemo backendBoom jitterHalf).calls = 1 ∧
    (generateWithClaude jloadsDemo backendBoom jitterHalf).delays = [] :=
  ⟨rfl, by decide,
   ((c5_retry_policy jloadsDemo backendBoom jitterHalf).2.2.2.2 "boom" rfl
      (by decide)).1,
   ((c5_retry_policy jloadsDemo backendBoom jitterHalf).2.2.2.2 "boom" rfl
      (by decide)).2.1,
   ((c5_retry_policy jloadsDemo backendBoom jitterHalf).2.2.2.2 "boom" rfl
      (by decide)).2.2⟩

/-- C6 counterexample: with a fenced json block present whose payload
does not parse, the brace-span strategy is never attempted even though
the first balanced brace span would parse, and the raised failure carries
only the fixed message — the truncated raw-response snippet goes to the
log and is not contained in the failure message. -/
theorem c6_extraction_counterexample :
    jloadsDemo cexContent = none ∧
    fencedExtract cexContent = some "bad" ∧
    jloadsDemo "bad" = none ∧
    braceExtract cexContent = some braceDemoStr ∧
    jloadsDemo braceDemoStr = some articleDemo ∧
    parseResponse jloadsDemo cexContent =
      ParseResult.fail genFailMsg (pyTake cexContent 500) ∧
    pyTake cexContent 500 = cexContent ∧
    pyIn cexContent genFailMsg = false := by
  decide

/-- C6 (amended): when direct parsing fails, extraction from a fenced
json code block is attempted first, and if such a block is present its
payload's parse outcome is final; only when no fenced block exists is the
first balanced brace span (nested at most one level) extracted and
parsed; when the applicable strategies fail, the failure carries the
fixed diagnostic message while a 500-character truncated snippet of the
raw response is written to the diagnostic log. -/
theorem c6_extraction_amended (jloads : String → Option ArticleData)
    (content : String) :
    (∀ a, jloads content = some a →
      parseResponse jloads content = ParseResult.ok a) ∧
    (jloads content = none →
      (∀ s, fencedExtract content = some s →
        parseResponse jloads content =
          match jloads s with
          | some a => ParseResult.ok a
          | none => ParseResult.fail genFailMsg (pyTake content 500)) ∧
      (fencedExtract content = none →
        (∀ s, braceExtract content = some s →
          parseResponse jloads content =
            match jloads s with
            | some a => ParseResult.ok a
            | none => ParseResult.fail genFailMsg (pyTake content 500)) ∧
        (braceExtract content = none →
          parseResponse jloads content =
            ParseResult.fail genFailMsg (pyTake content 500)))) := by
  refine ⟨?_, ?_⟩
  · intro a ha
    simp [parseResponse, ha]
  · intro h0
    refine ⟨?_, ?_⟩
    · intro s hs
      rcases hj : jloads s with _ | a <;> simp [parseResponse, h0, hs, hj]
    · intro hf
      refine ⟨?_, ?_⟩
      · intro s hs
        rcases hj : jloads s with _ | a <;> simp [parseResponse, h0, hf, hs, hj]
      · intro hb
        simp [parseResponse, h0, hf, hb]

/-- C6 witness: a response with no fenced block and no brace span fails
with the fixed message and the logged snippet. -/
theorem c6_extraction_amended_witness :
    jloadsDemo "x" = none ∧ fencedExtract "x" = none ∧ braceExtract "x" = none ∧
    parseResponse jloadsDemo "x" = ParseResult.fail genFailMsg (pyTake "x" 500) :=
  ⟨by decide, by decide, by decide,
   (((c6_extraction_amended jloadsDemo "x").2 (by decide)).2 (by decide)).2
     (by decide)⟩

/-- C10 witness: an invalid-JSON store with the configured limit of 5
reports a clean slate and admits a consume that records total 1. -/
theorem c10_corrupt_store_resets_witness :
    (getUsageInfoFile 5 0 FileState.invalidJson).totalUsed = 0 ∧
    (getUsageInfoFile 5 0 FileState.invalidJson).remaining = 5 ∧
    (getUsageInfoFile 5 0 FileState.invalidJson).canUse = true ∧
    (useQuotaFile 5 0 (some "198.51.100.7") FileState.invalidJson).fst = true :=
  ⟨(c10_corrupt_store_resets 5 0 (some "198.51.100.7") FileState.invalidJson
      (by norm_num) (Or.inr (Or.inr rfl))).1,
   (c10_corrupt_store_resets 5 0 (some "198.51.100.7") FileState.invalidJson
      (by norm_num) (Or.inr (Or.inr rfl))).2.1,
   (c10_corrupt_store_resets 5 0 (some "198.51.100.7") FileState.invalidJson
      (by norm_num) (Or.inr (Or.inr rfl))).2.2.1,
   (c10_corrupt_store_resets 5 0 (some "198.51.100.7") FileState.invalidJson
      (by norm_num) (Or.inr (Or.inr rfl))).2.2.2.1⟩

/-! ## Pipeline theorems -/

/-- C4: when generation succeeds, the article is written to the task's
`result` field strictly before the WordPress stage runs, and the final
task state still carries it whatever the publish stage does — a publish
failure, a publish exception, or skipped publishing never loses it. -/
theorem c4_result_preserved (env : PipelineEnv) (fileUrl : String) (t0 : TaskState)
    (a : ArticleData)
    (hd : ∃ p, env.download = Except.ok p)
    (ht : ∃ tr, env.transcribe = Except.ok tr)
    (hg : env.generation = Except.ok a) :
    (processPodcastBackground env fileUrl t0).fst.result = some a ∧
    ∃ l1 l2, (processPodcastBackground env fileUrl t0).snd =
        l1 ++ PipelineEvent.storeResult :: l2 ∧
      PipelineEvent.callWordPress ∉ l1 := by
  obtain ⟨p, hd⟩ := hd
  obtain ⟨tr, ht⟩ := ht
  rcases env with ⟨d, t, g, wc, wp⟩
  simp only at hd ht hg
  subst hd
  subst ht
  subst hg
  cases wc with
  | false =>
    exact ⟨rfl,
      [PipelineEvent.statusUpdate 1 "音声ダウンロード",
       PipelineEvent.statusUpdate 1 "音声ダウンロード",
       PipelineEvent.statusUpdate 2 "文字起こし",
       PipelineEvent.statusUpdate 2 "文字起こし",
       PipelineEvent.statusUpdate 3 "ブログ記事生成",
       PipelineEvent.statusUpdate 3 "ブログ記事生成"],
      [PipelineEvent.statusUpdate 4 "WordPress投稿",
       PipelineEvent.statusUpdate 4 "完了"], rfl, by decide⟩
  | true =>
    rcases wp with we | b
    · exact ⟨rfl,
        [PipelineEvent.statusUpdate 1 "音声ダウンロード",
         PipelineEvent.statusUpdate 1 "音声ダウンロード",
         PipelineEvent.statusUpdate 2 "文字起こし",
         PipelineEvent.statusUpdate 2 "文字起こし",
         PipelineEvent.statusUpdate 3 "ブログ記事生成",
         PipelineEvent.statusUpdate 3 "ブログ記事生成"],
        [PipelineEvent.statusUpdate 4 "WordPress投稿",
         PipelineEvent.callWordPress,
         PipelineEvent.statusUpdate 4 "完了"], rfl, by decide⟩
    · cases b
      · exact ⟨rfl,
          [PipelineEvent.statusUpdate 1 "音声ダウンロード",
           PipelineEvent.statusUpdate 1 "音声ダウンロード",
           PipelineEvent.statusUpdate 2 "文字起こし",
           PipelineEvent.statusUpdate 2 "文字起こし",
           PipelineEvent.statusUpdate 3 "ブログ記事生成",
           PipelineEvent.statusUpdate 3 "ブログ記事生成"],
          [PipelineEvent.statusUpdate 4 "WordPress投稿",
           PipelineEvent.callWordPress,
           PipelineEvent.statusUpdate 4 "完了"], rfl, by decide⟩
      · exact ⟨rfl,
          [PipelineEvent.statusUpdate 1 "音声ダウンロード",
           PipelineEvent.statusUpdate 1 "音声ダウンロード",
           PipelineEvent.statusUpdate 2 "文字起こし",
           PipelineEvent.statusUpdate 2 "文字起こし",
           PipelineEvent.statusUpdate 3 "ブログ記事生成",
           PipelineEvent.statusUpdate 3 "ブログ記事生成"],
          [PipelineEvent.statusUpdate 4 "WordPress投稿",
           PipelineEvent.callWordPress,
           PipelineEvent.statusUpdate 4 "完了"], rfl, by decide⟩

/-- Concrete pipeline environment: all stages succeed, WordPress is
configured and reports a publish failure. -/
def pipelineEnvDemo : PipelineEnv :=
  ⟨Except.ok "p", Except.ok "t", Except.ok articleDemo, true, Except.ok false⟩

/-- C4 witness: a run whose publish stage fails still ends with the
generated article in the task result. -/
theorem c4_result_preserved_witness :
    pipelineEnvDemo.generation = Except.ok articleDemo ∧
    (processPodcastBackground pipelineEnvDemo "http://e/x.mp3"
        initialTaskState).fst.result = some articleDemo :=
  ⟨rfl,
   (c4_result_preserved pipelineEnvDemo "http://e/x.mp3" initialTaskState
      articleDemo ⟨"p", rfl⟩ ⟨"t", rfl⟩ rfl).1⟩

/-! ## Publishing client theorems -/

theorem data_append (s t : String) : (s ++ t).data = s.data ++ t.data := by
  rcases s with ⟨l⟩
  rcases t with ⟨m⟩
  rfl

theorem containsChars_append_right (a b pat : List Char)
    (h : containsChars b pat = true) : containsChars (a ++ b) pat = true := by
  induction a with
  | nil => simpa using h
  | cons x xs ih =>
    show (isPrefixChars pat (x :: (xs ++ b)) || containsChars (xs ++ b) pat) = true
    rw [Bool.or_eq_true]
    exact Or.inr ih

/-- C7: publishing validates the settings first — an empty normalized
site address, username or password short-circuits to `false` with no
network request issued — and a `true` outcome requires both the login
stage and the submission stage to have succeeded, so any authentication
or submission failure yields `false` (the model is a total function:
every exception path is absorbed into `false`). -/
theorem c7_publish_contract (settings : WpSettings) (articleData : ArticleData)
    (env : WpEnv) :
    ((normalizeSiteUrl settings.siteUrl = "" ∨ settings.username = "" ∨
        settings.password = "") →
      postArticle settings articleData env = (false, [])) ∧
    ((postArticle settings articleData env).fst = true →
      (wpLogin env).fst = true ∧ (wpSubmitArticle env).fst = true) := by
  constructor
  · intro h
    have hv : validateSettings (normalizeSiteUrl settings.siteUrl)
        settings.username settings.password = false := by
      rcases h with h | h | h <;> simp [validateSettings, h]
    simp [postArticle, hv]
  · intro h
    by_cases hv : validateSettings (normalizeSiteUrl settings.siteUrl)
        settings.username settings.password
    · by_cases hl : (wpLogin env).fst
      · refine ⟨hl, ?_⟩
        simp [postArticle, hv, hl] at h
        exact h
      · simp [postArticle, hv, hl] at h
    · simp [postArticle, hv] at h

/-- Login-failure publishing environment: the login POST ends back on the
login page. -/
def wpRespLogin : WpResponse := ⟨"https://example.com/wp-login.php"⟩

/-- Environment whose login lands back on the login page. -/
def wpEnvLoginFail : WpEnv :=
  ⟨Except.ok (some []), Except.ok wpRespLogin, Except.ok (some []),
   Except.ok ⟨"", none⟩⟩

/-- Well-formed settings. -/
def wpSettingsDemo : WpSettings := ⟨"https://example.com", "u", "p"⟩

/-- Settings with an empty username. -/
def wpSettingsNoUser : WpSettings := ⟨"https://example.com", "", "p"⟩

/-- C7 witness: empty username short-circuits to `false` with no network
call. -/
theorem c7_publish_contract_witness :
    postArticle wpSettingsNoUser articleDemo wpEnvLoginFail = (false, []) :=
  (c7_publish_contract wpSettingsNoUser articleDemo wpEnvLoginFail).1
    (Or.inr (Or.inl rfl))

/-- C8: when the login response's final URL is still the login page,
`publish` returns `false` after only the two login requests — no editor
fetch and no submission are issued; when login succeeds but the editor
page's first form lacks one of the required hidden fields, `publish`
returns `false` after a single editor fetch with no submission and no
retry. -/
theorem c8_publish_gates (settings : WpSettings) (articleData : ArticleData)
    (env : WpEnv) (hidden : List (String × String)) (resp : WpResponse)
    (hv : validateSettings (normalizeSiteUrl settings.siteUrl) settings.username
        settings.password = true)
    (hlp : env.loginPage = Except.ok (some hidden))
    (hpost : env.loginPost = Except.ok resp) :
    (resp.url = normalizeSiteUrl settings.siteUrl ++ "/wp-login.php" →
      postArticle settings articleData env =
        (false, [WpCall.getLoginPage, WpCall.postLogin])) ∧
    (∀ fields, pyIn "wp-admin" resp.url = true → pyIn "login" resp.url = false →
      env.editorPage = Except.ok (some fields) →
      (∃ f ∈ requiredFields, flookup f fields = none) →
      postArticle settings articleData env =
        (false, [WpCall.getLoginPage, WpCall.postLogin, WpCall.getNewPost])) := by
  constructor
  · intro hurl
    have hlogin : pyIn "login" resp.url = true := by
      unfold pyIn
      rw [hurl, data_append]
      exact containsChars_append_right _ _ _ (by decide)
    have hWpLogin : wpLogin env = (false, [WpCall.getLoginPage, WpCall.postLogin]) := by
      simp [wpLogin, hlp, hpost, hlogin]
    simp [postArticle, hv, hWpLogin]
  · intro fields hadmin hlogin hedit hm
    obtain ⟨f, hf, hmiss⟩ := hm
    have hWpLogin : wpLogin env = (true, [WpCall.getLoginPage, WpCall.postLogin]) := by
      simp [wpLogin, hlp, hpost, hadmin, hlogin]
    have hall : requiredFields.all (fun g => (flookup g fields).isSome) = false := by
      cases hx : requiredFields.all (fun g => (flookup g fields).isSome)
      · rfl
      · exfalso
        rw [List.all_eq_true] at hx
        have hsome := hx f hf
        rw [hmiss] at hsome
        simp at hsome
    have hSub : wpSubmitArticle env = (false, [WpCall.getNewPost]) := by
      simp [wpSubmitArticle, hedit, hall]
    simp [postArticle, hv, hWpLogin, hSub]

/-- C8 witness: a login that ends on the login page yields `false` with
exactly the two login requests issued. -/
theorem c8_publish_gates_witness :
    validateSettings (normalizeSiteUrl wpSettingsDemo.siteUrl)
      wpSettingsDemo.username wpSettingsDemo.password = true ∧
    wpRespLogin.url = normalizeSiteUrl wpSettingsDemo.siteUrl ++ "/wp-login.php" ∧
    postArticle wpSettingsDemo articleDemo wpEnvLoginFail =
      (false, [WpCall.getLoginPage, WpCall.postLogin]) :=
  ⟨by decide, by decide,
   (c8_publish_gates wpSettingsDemo articleDemo wpEnvLoginFail [] wpRespLogin
      (by decide) rfl rfl).1 (by decide)⟩

end P2B
